import Mathlib

/-!
Shallow embedding of the giskard drift-test module
(`giskard/ml_worker/testing/tests/drift.py`) and of the result-mapping
function of `giskard/ml_worker/server/ml_worker_service.py`, together with
theorems settling the specification's claims about them.

Numbers are modelled by `ℚ`.  The external statistical library calls
(`np.log`, `scipy.stats.chi2.cdf`, `scipy.stats.wasserstein_distance`,
`scipy.stats.ks_2samp`) are passed in as function parameters: the module under
study treats them as black boxes, and the theorems assume only the
mathematical facts the specification relies on (sign of the logarithm,
CDF values lying in `[0, 1]`).
-/

namespace Giskard

variable {α : Type} [DecidableEq α]

/-- Per-category PSI contribution (`_calculate_psi`).  The source indexes the
two distribution arrays by category; here the two looked-up values are passed
directly.  `L` stands for the external `np.log`. -/
def calculate_psi (L : ℚ → ℚ) (actual_distribution expected_distribution : ℚ) : ℚ :=
  let min_distribution_probability : ℚ := 1 / 10000
  let expected_distribution_bounded := max expected_distribution min_distribution_probability
  let actual_distribution_bounded := max actual_distribution min_distribution_probability
  (expected_distribution_bounded - actual_distribution_bounded)
    * L (expected_distribution_bounded / actual_distribution_bounded)

/-- Result triple of `_calculate_frequencies`. -/
structure FreqResult (α : Type) where
  all_modalities : List α
  actual_frequencies : List ℤ
  expected_frequencies : List ℤ
deriving DecidableEq

/-- Stable insertion of `a` into a list sorted by decreasing `cnt`. -/
def ordered_insert_by_count (cnt : α → ℕ) (a : α) : List α → List α
  | [] => [a]
  | b :: l => if cnt b ≤ cnt a then a :: b :: l else b :: ordered_insert_by_count cnt a l

/-- Stable sort by decreasing `cnt`. -/
def sort_by_count (cnt : α → ℕ) : List α → List α
  | [] => []
  | a :: l => ordered_insert_by_count cnt a (sort_by_count cnt l)

/-- `Counter(reference_series).most_common(k)` restricted to the keys: the `k`
distinct values of the series with the highest counts. -/
def most_common (reference_series : List α) (k : ℕ) : List α :=
  (sort_by_count (fun c => reference_series.count c) reference_series.dedup).take k

/-- The `else` branch of `_calculate_frequencies`: raw counts per distinct value. -/
def uncapped_frequencies (actual_series reference_series all_modalities : List α) :
    FreqResult α :=
  { all_modalities := all_modalities
    actual_frequencies := all_modalities.map fun c => (actual_series.count c : ℤ)
    expected_frequencies := all_modalities.map fun c => (reference_series.count c : ℤ) }

/-- The capping branch of `_calculate_frequencies`: top-`k` reference categories
plus a synthetic other-modalities bucket absorbing the remainder.  The uuid-based
synthetic label of the source is passed in as `other_modalities_key`. -/
def capped_frequencies (actual_series reference_series : List α) (k : ℕ)
    (other_modalities_key : α) : FreqResult α :=
  let top := most_common reference_series k
  let var_count_expected := top.map fun c => (reference_series.count c : ℤ)
  let expected_other : ℤ := (reference_series.length : ℤ) - var_count_expected.sum
  let categories_list := top ++ [other_modalities_key]
  let var_count_actual := categories_list.map fun c => (actual_series.count c : ℤ)
  let actual_other : ℤ := (actual_series.length : ℤ) - var_count_actual.sum
  { all_modalities := categories_list
    actual_frequencies := (top.map fun c => (actual_series.count c : ℤ)) ++ [actual_other]
    expected_frequencies := var_count_expected ++ [expected_other] }

/-- `_calculate_frequencies`. -/
def calculate_frequencies (actual_series reference_series : List α)
    (max_categories : Option ℕ) (other_modalities_key : α) : FreqResult α :=
  let all_modalities := (reference_series ++ actual_series).dedup
  match max_categories with
  | some k =>
      if k < all_modalities.length then
        capped_frequencies actual_series reference_series k other_modalities_key
      else uncapped_frequencies actual_series reference_series all_modalities
  | none => uncapped_frequencies actual_series reference_series all_modalities

/-- Whether the capping branch of `_calculate_frequencies` is taken. -/
def capping_active (actual_series reference_series : List α) : Option ℕ → Bool
  | some k => decide (k < ((reference_series ++ actual_series).dedup).length)
  | none => false

/-- The two proportion vectors computed inside `_calculate_drift_psi`
(expected first, actual second). -/
def psi_distributions (actual_series reference_series : List α)
    (max_categories : Option ℕ) (other_modalities_key : α) : List ℚ × List ℚ :=
  let fr := calculate_frequencies actual_series reference_series max_categories other_modalities_key
  (fr.expected_frequencies.map fun (c : ℤ) => (c : ℚ) / (reference_series.length : ℚ),
   fr.actual_frequencies.map fun (c : ℤ) => (c : ℚ) / (actual_series.length : ℚ))

/-- One row of the per-category diagnostic table of `_calculate_drift_psi`. -/
structure PsiRow (α : Type) where
  modality : α
  reference_distribution : ℚ
  actual_distribution : ℚ
  psi : ℚ
deriving DecidableEq

/-- The per-category PSI contributions, in table order. -/
def psi_contributions (L : ℚ → ℚ) (expected_distribution actual_distribution : List ℚ) :
    List ℚ :=
  (expected_distribution.zip actual_distribution).map fun p => calculate_psi L p.2 p.1

/-- `_calculate_drift_psi`: total PSI plus the diagnostic table. -/
def calculate_drift_psi (L : ℚ → ℚ) (actual_series reference_series : List α)
    (max_categories : Option ℕ) (other_modalities_key : α) : ℚ × List (PsiRow α) :=
  let fr := calculate_frequencies actual_series reference_series max_categories other_modalities_key
  let d := psi_distributions actual_series reference_series max_categories other_modalities_key
  let psis := psi_contributions L d.1 d.2
  let rows := (fr.all_modalities.zip (d.1.zip psis)).map fun p =>
    { modality := p.1
      reference_distribution := p.2.1
      -- the Actual_distribution column receives the expected value, as in the source
      actual_distribution := p.2.1
      psi := p.2.2 : PsiRow α }
  (psis.sum, rows)

/-- One row of the per-category diagnostic table of `_calculate_chi_square`. -/
structure ChiRow (α : Type) where
  modality : α
  reference_frequencies : ℤ
  actual_frequencies : ℤ
  chi_square : ℚ
deriving DecidableEq

/-- The per-category chi-square contributions, in table order. -/
def chi_contributions (k_norm : ℚ) (actual_frequencies expected_frequencies : List ℤ) :
    List ℚ :=
  (actual_frequencies.zip expected_frequencies).map fun p =>
    ((p.1 : ℚ) - (p.2 : ℚ) * k_norm) ^ 2 / ((p.2 : ℚ) * k_norm)

/-- `_calculate_chi_square`.  `cdf` stands for the external `chi2.cdf`, taking
the statistic and the degrees of freedom. -/
def calculate_chi_square (cdf : ℚ → ℕ → ℚ) (actual_series reference_series : List α)
    (max_categories : Option ℕ) (other_modalities_key : α) : ℚ × ℚ × List (ChiRow α) :=
  let fr := calculate_frequencies actual_series reference_series max_categories other_modalities_key
  let k_norm : ℚ := (actual_series.length : ℚ) / (reference_series.length : ℚ)
  let chis := chi_contributions k_norm fr.actual_frequencies fr.expected_frequencies
  let chi_square := chis.sum
  let rows := (fr.all_modalities.zip ((fr.actual_frequencies.zip fr.expected_frequencies).zip chis)).map
    fun p =>
      { modality := p.1
        reference_frequencies := p.2.1.2
        actual_frequencies := p.2.1.1
        chi_square := p.2.2 : ChiRow α }
  let p_value : ℚ :=
    if 1 < fr.all_modalities.length then
      let chi_cdf := cdf chi_square (fr.all_modalities.length - 1)
      if chi_cdf ≠ 0 then 1 - chi_cdf else 0
    else 0
  (chi_square, p_value, rows)

/-- `_calculate_ks`.  `ks` stands for the external `ks_2samp`, returning the
pair (statistic, p-value); the source passes the reference series first. -/
def calculate_ks (ks : List ℚ → List ℚ → ℚ × ℚ) (actual_series reference_series : List ℚ) :
    ℚ × ℚ :=
  ks reference_series actual_series

/-- The combined sample space of `_calculate_earth_movers_distance`. -/
def emd_sample_space (actual_series reference_series : List ℚ) : List ℚ :=
  (reference_series ++ actual_series).dedup

/-- `max(sample_space)` of `_calculate_earth_movers_distance`. -/
def emd_val_max (actual_series reference_series : List ℚ) : ℚ :=
  (emd_sample_space actual_series reference_series).foldl max
    ((emd_sample_space actual_series reference_series).headD 0)

/-- `min(sample_space)` of `_calculate_earth_movers_distance`. -/
def emd_val_min (actual_series reference_series : List ℚ) : ℚ :=
  (emd_sample_space actual_series reference_series).foldl min
    ((emd_sample_space actual_series reference_series).headD 0)

/-- `_calculate_earth_movers_distance`.  `wass` stands for the external
`wasserstein_distance`. -/
def calculate_earth_movers_distance (wass : List ℚ → List ℚ → ℚ)
    (actual_series reference_series : List ℚ) : ℚ :=
  let val_max := emd_val_max actual_series reference_series
  let val_min := emd_val_min actual_series reference_series
  if val_max = val_min then 0
  else
    wass (reference_series.map fun x => (x - val_min) / (val_max - val_min))
         (actual_series.map fun x => (x - val_min) / (val_max - val_min))

/-- The Python exception kinds the drift module can raise. -/
inductive TestError where
  | assertionError (msg : String)
  | valueError (msg : String)
  | typeError (msg : String)
  | keyError (msg : String)
deriving DecidableEq

/-- Severity of a test message (`TestMessageType` of the wire module). -/
inductive TestMessageType where
  | ERROR
  | INFO
deriving DecidableEq

/-- A drift test message. -/
structure TestMessage where
  type : TestMessageType
  text : String
deriving DecidableEq

/-- Modelled from the spec: the Test Result record returned by the drift tests.
The class itself (`giskard.ml_worker.core.test_result.TestResult`) is outside
the given sources; the fields here are the ones every drift test constructs,
matching the spec's Test Result shape. -/
structure TestResult where
  actual_slices_size : List ℕ
  reference_slices_size : List ℕ
  passed : Bool
  metric : ℚ
  messages : Option (List TestMessage)
deriving DecidableEq

/-- Modelled from the spec: the Dataset collaborator, reduced to what the drift
tests read — named columns of values and a feature-type annotation per column. -/
structure Dataset (α : Type) where
  columns : List String
  df : String → List α
  feature_types : String → String

/-- `_validate_feature_type`. -/
def validate_feature_type (gsk_dataset : Dataset α) (column_name feature_type : String) :
    Except TestError Unit :=
  if gsk_dataset.feature_types column_name = feature_type then Except.ok ()
  else Except.error (TestError.assertionError
    ("Column \"" ++ column_name ++ "\" is not of type \"" ++ feature_type ++ "\""))

/-- `_validate_column_name`. -/
def validate_column_name (actual_ds reference_ds : Dataset α) (column_name : String) :
    Except TestError Unit :=
  if column_name ∈ actual_ds.columns then
    if column_name ∈ reference_ds.columns then Except.ok ()
    else Except.error (TestError.assertionError
      ("\"" ++ column_name ++ "\" is not a column of Reference Dataset Columns: "
        ++ String.intercalate ", " reference_ds.columns))
  else Except.error (TestError.assertionError
    ("\"" ++ column_name ++ "\" is not a column of Actual Dataset Columns: "
      ++ String.intercalate ", " actual_ds.columns))

/-- `_validate_series_notempty`. -/
def validate_series_notempty (actual_series reference_series : List α) :
    Except TestError Unit :=
  if actual_series.isEmpty then
    Except.error (TestError.valueError "Actual Series computed from the column is empty")
  else if reference_series.isEmpty then
    Except.error (TestError.valueError "Reference Series computed from the column is empty")
  else Except.ok ()

/-- `_extract_series`: column/type validation, series extraction, non-emptiness
validation. -/
def extract_series (actual_ds reference_ds : Dataset α) (column_name feature_type : String) :
    Except TestError (List α × List α) := do
  let _ ← validate_column_name actual_ds reference_ds column_name
  let _ ← validate_feature_type actual_ds column_name feature_type
  let _ ← validate_feature_type reference_ds column_name feature_type
  let actual_series := actual_ds.df column_name
  let reference_series := reference_ds.df column_name
  let _ ← validate_series_notempty actual_series reference_series
  pure (actual_series, reference_series)

/-- The `other_modalities_pattern` regular expression of the source, as a
decidable predicate on strings. -/
def other_modalities_match (w : String) : Bool :=
  w.startsWith "other_modalities_" && w.length == 49
    && (w.drop 17).toList.all fun c => c.isLower || c.isDigit

/-- `_generate_message_modalities`, applied to the already-flagged modality list. -/
def generate_message_modalities (modalities_list : List String) (test_data : String) :
    Option (List TestMessage) :=
  let filtered_modalities := modalities_list.filter fun w => !(other_modalities_match w)
  if filtered_modalities.isEmpty then none
  else some [{ type := TestMessageType.ERROR
               text := "The " ++ test_data ++ " is drifting for the following modalities: "
                 ++ String.intercalate "," filtered_modalities }]

/-- Banker-style rounding to nine decimal digits, modelling `np.round(x, 9)`. -/
def np_round9 (x : ℚ) : ℚ :=
  let s := x * 1000000000
  let fl : ℤ := ⌊s⌋
  let frac := s - (fl : ℚ)
  let r : ℤ :=
    if frac < 1 / 2 then fl
    else if 1 / 2 < frac then fl + 1
    else if fl % 2 = 0 then fl else fl + 1
  (r : ℚ) / 1000000000

/-- Rendering of the threshold inside a message (`None` for an unset one).
`fmt` stands for Python float formatting. -/
def format_threshold (fmt : ℚ → String) : Option ℚ → String
  | none => "None"
  | some t => fmt t

/-- `_generate_message_ks`. -/
def generate_message_ks (fmt : ℚ → String) (passed : Bool) (pvalue : ℚ)
    (threshold : Option ℚ) (data_type : String) : Option (List TestMessage) :=
  if passed then none
  else some [{ type := TestMessageType.ERROR
               text := "The " ++ data_type ++ " is drifting (p-value is equal to "
                 ++ fmt (np_round9 pvalue) ++ " and is below the test risk level "
                 ++ format_threshold fmt threshold ++ ") " }]

/-- `_test_series_drift_psi`. -/
def test_series_drift_psi (L : ℚ → ℚ) (actual_series reference_series : List String)
    (test_data : String) (max_categories : Option ℕ) (psi_contribution_percent : ℚ)
    (threshold : Option ℚ) (other_modalities_key : String) :
    Option (List TestMessage) × Bool × ℚ :=
  let r := calculate_drift_psi L actual_series reference_series max_categories other_modalities_key
  let total_psi := r.1
  let passed := match threshold with
    | none => true
    | some t => decide (total_psi ≤ t)
  let main_drifting_modalities :=
    (r.2.filter fun row => psi_contribution_percent * total_psi < row.psi).map
      fun row => row.modality
  (generate_message_modalities main_drifting_modalities test_data, passed, total_psi)

/-- `_test_series_drift_chi`. -/
def test_series_drift_chi (cdf : ℚ → ℕ → ℚ) (actual_series reference_series : List String)
    (test_data : String) (chi_square_contribution_percent : ℚ) (max_categories : Option ℕ)
    (threshold : ℚ) (other_modalities_key : String) :
    Option (List TestMessage) × ℚ × Bool :=
  let r := calculate_chi_square cdf actual_series reference_series max_categories other_modalities_key
  let chi_square := r.1
  let p_value := r.2.1
  let passed := decide (threshold < p_value)
  let main_drifting_modalities :=
    (r.2.2.filter fun row => chi_square_contribution_percent * chi_square < row.chi_square).map
      fun row => row.modality
  (generate_message_modalities main_drifting_modalities test_data, p_value, passed)

/-- `test_drift_psi` (categorical feature drift, PSI). -/
def test_drift_psi (L : ℚ → ℚ) (reference_ds actual_ds : Dataset String)
    (column_name : String) (threshold : Option ℚ) (max_categories : Option ℕ)
    (psi_contribution_percent : ℚ) (other_modalities_key : String) :
    Except TestError TestResult := do
  let s ← extract_series actual_ds reference_ds column_name "category"
  let r := test_series_drift_psi L s.1 s.2 "data" max_categories psi_contribution_percent
    threshold other_modalities_key
  pure { actual_slices_size := [s.1.length]
         reference_slices_size := [s.2.length]
         passed := r.2.1
         metric := r.2.2
         messages := r.1 }

/-- `test_drift_chi_square` (categorical feature drift, chi-square). -/
def test_drift_chi_square (cdf : ℚ → ℕ → ℚ) (reference_ds actual_ds : Dataset String)
    (column_name : String) (threshold : ℚ) (max_categories : Option ℕ)
    (chi_square_contribution_percent : ℚ) (other_modalities_key : String) :
    Except TestError TestResult := do
  let s ← extract_series actual_ds reference_ds column_name "category"
  let r := test_series_drift_chi cdf s.1 s.2 "data" chi_square_contribution_percent
    max_categories threshold other_modalities_key
  pure { actual_slices_size := [s.1.length]
         reference_slices_size := [s.2.length]
         passed := r.2.2
         metric := r.2.1
         messages := r.1 }

/-- `test_drift_ks` (numerical feature drift, Kolmogorov-Smirnov). -/
def test_drift_ks (ks : List ℚ → List ℚ → ℚ × ℚ) (reference_ds actual_ds : Dataset ℚ)
    (column_name : String) (threshold : ℚ) (fmt : ℚ → String) :
    Except TestError TestResult := do
  let s ← extract_series actual_ds reference_ds column_name "numeric"
  let result := calculate_ks ks s.1 s.2
  let passed := decide (threshold ≤ result.2)
  let messages := generate_message_ks fmt passed result.2 (some threshold) "data"
  pure { actual_slices_size := [s.1.length]
         reference_slices_size := [s.2.length]
         passed := passed
         metric := result.2
         messages := messages }

/-- `test_drift_earth_movers_distance` (numerical feature drift).  The source
evaluates `bool(metric <= threshold)` before its threshold-is-None guard, so an
unset threshold raises a TypeError there; the embedding mirrors that order. -/
def test_drift_earth_movers_distance (wass : List ℚ → List ℚ → ℚ)
    (reference_ds actual_ds : Dataset ℚ) (column_name : String) (threshold : Option ℚ)
    (fmt : ℚ → String) : Except TestError TestResult := do
  let s ← extract_series actual_ds reference_ds column_name "numeric"
  let metric := calculate_earth_movers_distance wass s.1 s.2
  let passed ← match threshold with
    | none => Except.error (TestError.typeError
        "comparison not supported between instances of float and NoneType")
    | some t => pure (decide (metric ≤ t))
  let messages : Option (List TestMessage) :=
    if passed then none
    else some [{ type := TestMessageType.ERROR
                 text := "The data is drifting (metric is equal to " ++ fmt (np_round9 metric)
                   ++ " and is below the test risk level " ++ format_threshold fmt threshold
                   ++ ") " }]
  pure { actual_slices_size := [s.1.length]
         reference_slices_size := [s.2.length]
         passed := (match threshold with | none => true | some _ => passed)
         metric := metric
         messages := messages }

/-- `test_drift_prediction_psi` (label drift, PSI), taking the two prediction
series produced by the external model. -/
def test_drift_prediction_psi (L : ℚ → ℚ) (prediction_actual prediction_reference : List String)
    (max_categories : Option ℕ) (threshold : Option ℚ) (psi_contribution_percent : ℚ)
    (other_modalities_key : String) : Except TestError TestResult :=
  let r := test_series_drift_psi L prediction_actual prediction_reference "prediction"
    max_categories psi_contribution_percent threshold other_modalities_key
  Except.ok { actual_slices_size := [prediction_actual.length]
              reference_slices_size := [prediction_reference.length]
              passed := r.2.1
              metric := r.2.2
              messages := r.1 }

/-- `test_drift_prediction_chi_square` (label drift, chi-square), taking the two
prediction series produced by the external model. -/
def test_drift_prediction_chi_square (cdf : ℚ → ℕ → ℚ)
    (prediction_actual prediction_reference : List String) (max_categories : Option ℕ)
    (threshold : ℚ) (chi_square_contribution_percent : ℚ) (other_modalities_key : String) :
    Except TestError TestResult :=
  let r := test_series_drift_chi cdf prediction_actual prediction_reference "prediction"
    chi_square_contribution_percent max_categories threshold other_modalities_key
  Except.ok { actual_slices_size := [prediction_actual.length]
              reference_slices_size := [prediction_reference.length]
              passed := r.2.2
              metric := r.2.1
              messages := r.1 }

/-- Modelled from the spec: the model metadata the prediction tests read. -/
structure ModelMeta where
  model_type : String
  classification_labels : List String

/-- `classification_label in model.meta.classification_labels` (a `None` label is
never a member). -/
def label_in_labels (classification_label : Option String) (labels : List String) : Bool :=
  match classification_label with
  | none => false
  | some l => decide (l ∈ labels)

/-- Python rendering of the optional label inside messages. -/
def label_display (classification_label : Option String) : String :=
  match classification_label with
  | none => "None"
  | some l => l

/-- The assertion message of `test_drift_prediction_ks` for an unknown label. -/
def label_assert_message (classification_label : Option String) (labels : List String) :
    String :=
  "\"" ++ label_display classification_label ++ "\" is not part of model labels: "
    ++ String.intercalate "," labels

/-- `model.predict(slice).all_predictions[classification_label]`: a missing column
raises a KeyError. -/
def lookup_predictions (all_predictions : String → Option (List ℚ))
    (classification_label : Option String) : Except TestError (List ℚ) :=
  match classification_label with
  | none => Except.error (TestError.keyError "None")
  | some l =>
    match all_predictions l with
    | some s => Except.ok s
    | none => Except.error (TestError.keyError l)

/-- `test_drift_prediction_ks` (probability drift, Kolmogorov-Smirnov).  The
model is supplied through its metadata and its prediction outputs on the two
slices. -/
def test_drift_prediction_ks (ks : List ℚ → List ℚ → ℚ × ℚ) (meta : ModelMeta)
    (all_predictions_reference all_predictions_actual : String → Option (List ℚ))
    (prediction_reference_regression prediction_actual_regression : List ℚ)
    (classification_label : Option String) (threshold : Option ℚ) (fmt : ℚ → String) :
    Except TestError TestResult := do
  let _ ← (if meta.model_type = "classification"
        ∧ label_in_labels classification_label meta.classification_labels = false then
      Except.error (TestError.assertionError
        (label_assert_message classification_label meta.classification_labels))
    else Except.ok ())
  let prediction_reference ← (if meta.model_type = "classification" then
      lookup_predictions all_predictions_reference classification_label
    else Except.ok prediction_reference_regression)
  let prediction_actual ← (if meta.model_type = "classification" then
      lookup_predictions all_predictions_actual classification_label
    else Except.ok prediction_actual_regression)
  let result := calculate_ks ks prediction_reference prediction_actual
  let passed := match threshold with
    | none => true
    | some t => decide (t ≤ result.2)
  let messages := generate_message_ks fmt passed result.2 threshold "prediction"
  pure { actual_slices_size := [prediction_actual.length]
         reference_slices_size := [prediction_reference.length]
         passed := passed
         metric := result.2
         messages := messages }

/-- `test_drift_prediction_earth_movers_distance` (probability drift).  Unlike
the KS variant, the source performs no label-membership assertion. -/
def test_drift_prediction_earth_movers_distance (wass : List ℚ → List ℚ → ℚ)
    (meta : ModelMeta)
    (all_predictions_reference all_predictions_actual : String → Option (List ℚ))
    (prediction_reference_regression prediction_actual_regression : List ℚ)
    (classification_label : Option String) (threshold : Option ℚ) (fmt : ℚ → String) :
    Except TestError TestResult := do
  let prediction_reference ← (if meta.model_type = "classification" then
      lookup_predictions all_predictions_reference classification_label
    else Except.ok prediction_reference_regression)
  let prediction_actual ← (if meta.model_type = "classification" then
      lookup_predictions all_predictions_actual classification_label
    else Except.ok prediction_actual_regression)
  let metric := calculate_earth_movers_distance wass prediction_reference prediction_actual
  let passed := match threshold with
    | none => true
    | some t => decide (metric ≤ t)
  let messages : Option (List TestMessage) :=
    if passed then none
    else some [{ type := TestMessageType.ERROR
                 text := "The prediction is drifting (metric is equal to "
                   ++ fmt (np_round9 metric) ++ " and is above the test risk level "
                   ++ format_threshold fmt threshold ++ ") " }]
  pure { actual_slices_size := [prediction_actual.length]
         reference_slices_size := [prediction_reference.length]
         passed := passed
         metric := metric
         messages := messages }

/-- Whether a test outcome is a ValueError (the empty-series validation error). -/
def isValueError {β : Type} : Except TestError β → Bool
  | Except.error (TestError.valueError _) => true
  | _ => false

/-- Whether a test outcome is an AssertionError (an input-validation assert). -/
def isAssertError {β : Type} : Except TestError β → Bool
  | Except.error (TestError.assertionError _) => true
  | _ => false

/-- Whether a test completed without raising. -/
def isOkResult {β : Type} : Except TestError β → Bool
  | Except.ok _ => true
  | _ => false

/-- A reference series whose rare categories sit at the PSI clamping floor:
9999 copies of category 0 and one of category 1 (length 10000). -/
def psi_ce_reference : List ℕ := List.replicate 9999 0 ++ [1]

/-- An actual series differing from `psi_ce_reference` only in the rare
category: 9999 copies of category 0 and one of category 2 (length 10000). -/
def psi_ce_actual : List ℕ := List.replicate 9999 0 ++ [2]

end Giskard

namespace Giskard.Service

/-- Severity enum of the core test-result module (`TestMessageLevel`). -/
inductive TestMessageLevel where
  | ERROR
  | INFO
deriving DecidableEq

/-- Severity enum of the generated wire module (`TestMessageType`). -/
inductive TestMessageType where
  | ERROR
  | INFO
deriving DecidableEq

/-- A message of the core `TestResult`, as read by the mapping function. -/
structure TestMessage where
  type : TestMessageLevel
  text : String
deriving DecidableEq

/-- A `partial_unexpected_counts` entry. -/
structure PartialUnexpectedCounts where
  value : String
  count : ℕ
deriving DecidableEq

/-- Modelled from the spec: the core `TestResult` record
(`giskard.ml_worker.core.test_result`, outside the given sources), with exactly
the fields `map_result_to_single_test_result` reads. -/
structure TestResult where
  passed : Bool
  messages : List TestMessage
  props : List (String × String)
  metric : ℚ
  missing_count : ℕ
  missing_percent : ℚ
  unexpected_count : ℕ
  unexpected_percent : ℚ
  unexpected_percent_total : ℚ
  unexpected_percent_nonmissing : ℚ
  partial_unexpected_index_list : List PartialUnexpectedCounts
  unexpected_index_list : List ℕ
  output_df : String
  number_of_perturbed_rows : ℕ
  actual_slices_size : List ℕ
  reference_slices_size : List ℕ
deriving DecidableEq

/-- A message of the generated `SingleTestResult`. -/
structure ProtoTestMessage where
  type : TestMessageType
  text : String
deriving DecidableEq

/-- Modelled from the spec: the generated `SingleTestResult` wire record
(outside the given sources); unset fields keep protobuf defaults. -/
structure SingleTestResult where
  passed : Bool := false
  messages : List ProtoTestMessage := []
  props : List (String × String) := []
  metric : ℚ := 0
  missing_count : ℕ := 0
  missing_percent : ℚ := 0
  unexpected_count : ℕ := 0
  unexpected_percent : ℚ := 0
  unexpected_percent_total : ℚ := 0
  unexpected_percent_nonmissing : ℚ := 0
  partial_unexpected_index_list : List PartialUnexpectedCounts := []
  unexpected_index_list : List ℕ := []
  output_df : String := ""
  number_of_perturbed_rows : ℕ := 0
  actual_slices_size : List ℕ := []
  reference_slices_size : List ℕ := []
deriving DecidableEq

/-- The possible runtime types of the argument of
`map_result_to_single_test_result`, as distinguished by its isinstance chain. -/
inductive MapResultInput where
  | single (r : SingleTestResult)
  | test (r : TestResult)
  | boolean (b : Bool)
  | unsupported
deriving DecidableEq

/-- The message-severity conversion inside the TestResult branch. -/
def message_type_of_level (level : TestMessageLevel) : TestMessageType :=
  if level = TestMessageLevel.ERROR then TestMessageType.ERROR else TestMessageType.INFO

/-- `map_result_to_single_test_result`. -/
def map_result_to_single_test_result : MapResultInput → Except String SingleTestResult
  | MapResultInput.single result => Except.ok result
  | MapResultInput.test result => Except.ok
      { passed := result.passed
        messages := result.messages.map fun message =>
          { type := message_type_of_level message.type, text := message.text }
        props := result.props
        metric := result.metric
        missing_count := result.missing_count
        missing_percent := result.missing_percent
        unexpected_count := result.unexpected_count
        unexpected_percent := result.unexpected_percent
        unexpected_percent_total := result.unexpected_percent_total
        unexpected_percent_nonmissing := result.unexpected_percent_nonmissing
        partial_unexpected_index_list := result.partial_unexpected_index_list.map fun puc =>
          { value := puc.value, count := puc.count }
        unexpected_index_list := result.unexpected_index_list
        output_df := result.output_df
        number_of_perturbed_rows := result.number_of_perturbed_rows
        actual_slices_size := result.actual_slices_size
        reference_slices_size := result.reference_slices_size }
  | MapResultInput.boolean result => Except.ok { passed := result }
  | MapResultInput.unsupported =>
      Except.error "Result of test can only be GiskardTestResult or bool"

end Giskard.Service

namespace Giskard

variable {α : Type} [DecidableEq α]

theorem sum_map_count_nodup_eq (L l : List α) (hL : L.Nodup) (hcov : ∀ x ∈ l, x ∈ L) :
    (L.map fun a => l.count a).sum = l.length := by
  have hsub : l.toFinset ⊆ L.toFinset := by
    intro x hx
    exact List.mem_toFinset.mpr (hcov x (List.mem_toFinset.mp hx))
  have h1 : (L.map fun a => l.count a).sum = L.toFinset.sum fun a => l.count a :=
    (List.sum_toFinset _ hL).symm
  have h2 : L.toFinset.sum (fun a => l.count a) = l.toFinset.sum fun a => l.count a := by
    refine (Finset.sum_subset hsub ?_).symm
    intro x _ hxl
    exact List.count_eq_zero_of_not_mem fun hmem => hxl (List.mem_toFinset.mpr hmem)
  have hdf : l.dedup.toFinset = l.toFinset := by
    apply Finset.ext
    intro x
    simp [List.mem_toFinset, List.mem_dedup]
  have h3 : l.toFinset.sum (fun a => l.count a) = (l.dedup.map fun a => l.count a).sum := by
    rw [← hdf]
    exact List.sum_toFinset _ (List.nodup_dedup l)
  rw [h1, h2, h3]
  exact List.sum_map_count_dedup_eq_length l

theorem sum_map_count_nodup_le (L l : List α) (hL : L.Nodup) :
    (L.map fun a => l.count a).sum ≤ l.length := by
  have h1 : (L.map fun a => l.count a).sum = L.toFinset.sum fun a => l.count a :=
    (List.sum_toFinset _ hL).symm
  have h2 : L.toFinset.sum (fun a => l.count a)
      = (L.toFinset ∩ l.toFinset).sum fun a => l.count a := by
    refine (Finset.sum_subset Finset.inter_subset_left ?_).symm
    intro x hxL hxn
    have hxl : x ∉ l.toFinset := fun hmem => hxn (Finset.mem_inter.mpr ⟨hxL, hmem⟩)
    exact List.count_eq_zero_of_not_mem fun hmem => hxl (List.mem_toFinset.mpr hmem)
  have h3 : (L.toFinset ∩ l.toFinset).sum (fun a => l.count a)
      ≤ l.toFinset.sum fun a => l.count a :=
    Finset.sum_le_sum_of_subset_of_nonneg Finset.inter_subset_right fun _ _ _ => Nat.zero_le _
  have hdf : l.dedup.toFinset = l.toFinset := by
    apply Finset.ext
    intro x
    simp [List.mem_toFinset, List.mem_dedup]
  have h4 : l.toFinset.sum (fun a => l.count a) = (l.dedup.map fun a => l.count a).sum := by
    rw [← hdf]
    exact List.sum_toFinset _ (List.nodup_dedup l)
  rw [h1, h2]
  calc (L.toFinset ∩ l.toFinset).sum (fun a => l.count a)
      ≤ l.toFinset.sum fun a => l.count a := h3
    _ = (l.dedup.map fun a => l.count a).sum := h4
    _ = l.length := List.sum_map_count_dedup_eq_length l

theorem sum_map_intCast (l : List α) (f : α → ℕ) :
    (l.map fun a => ((f a : ℕ) : ℤ)).sum = (((l.map f).sum : ℕ) : ℤ) := by
  rw [Nat.cast_list_sum, List.map_map]
  rfl

theorem ordered_insert_by_count_perm (cnt : α → ℕ) (a : α) :
    ∀ l : List α, (ordered_insert_by_count cnt a l).Perm (a :: l)
  | [] => List.Perm.refl _
  | b :: t => by
      unfold ordered_insert_by_count
      split
      · exact List.Perm.refl _
      · exact ((ordered_insert_by_count_perm cnt a t).cons b).trans (List.Perm.swap a b t)

theorem sort_by_count_perm (cnt : α → ℕ) : ∀ l : List α, (sort_by_count cnt l).Perm l
  | [] => List.Perm.refl _
  | a :: t => by
      unfold sort_by_count
      exact (ordered_insert_by_count_perm cnt a _).trans ((sort_by_count_perm cnt t).cons a)

theorem most_common_nodup (reference_series : List α) (k : ℕ) :
    (most_common reference_series k).Nodup := by
  have hnd : (sort_by_count (fun c => reference_series.count c) reference_series.dedup).Nodup :=
    (sort_by_count_perm (fun c => reference_series.count c) reference_series.dedup).nodup_iff.mpr
      (List.nodup_dedup _)
  exact List.Nodup.sublist (List.take_sublist _ _) hnd

theorem most_common_count_sum_le (reference_series : List α) (k : ℕ) :
    (((most_common reference_series k).map fun c => reference_series.count c).sum : ℤ)
      ≤ (reference_series.length : ℤ) :=
  Int.ofNat_le.mpr
    (sum_map_count_nodup_le (most_common reference_series k) reference_series
      (most_common_nodup reference_series k))

theorem expected_frequencies_nonneg (actual_series reference_series : List α)
    (max_categories : Option ℕ) (other_modalities_key : α) :
    ∀ x ∈ (calculate_frequencies actual_series reference_series max_categories
        other_modalities_key).expected_frequencies, 0 ≤ x := by
  intro x hx
  cases max_categories with
  | none =>
      simp only [calculate_frequencies, uncapped_frequencies, List.mem_map] at hx
      obtain ⟨c, _, rfl⟩ := hx
      exact Int.ofNat_nonneg _
  | some k =>
      by_cases hk : k < ((reference_series ++ actual_series).dedup).length
      · simp only [calculate_frequencies, if_pos hk, capped_frequencies, List.mem_append,
          List.mem_map, List.mem_singleton] at hx
        rcases hx with ⟨c, _, rfl⟩ | rfl
        · exact Int.ofNat_nonneg _
        · have hle := most_common_count_sum_le reference_series k
          rw [← sum_map_intCast] at hle
          linarith
      · simp only [calculate_frequencies, if_neg hk, uncapped_frequencies, List.mem_map] at hx
        obtain ⟨c, _, rfl⟩ := hx
        exact Int.ofNat_nonneg _

/-- C3: for every pair of categorical series and every `max_categories`, the
frequency table has reference counts summing to the reference length, actual
counts summing to the actual length, and, when capping is active, at most
`max_categories + 1` categories.  The synthetic other-modalities key is assumed
fresh, as the uuid-based label of the source is designed to be. -/
theorem calculate_frequencies_invariants (actual_series reference_series : List α)
    (max_categories : Option ℕ) (other_modalities_key : α)
    (h_other_actual : other_modalities_key ∉ actual_series)
    (h_other_reference : other_modalities_key ∉ reference_series) :
    ((calculate_frequencies actual_series reference_series max_categories
        other_modalities_key).expected_frequencies.sum = (reference_series.length : ℤ)) ∧
    ((calculate_frequencies actual_series reference_series max_categories
        other_modalities_key).actual_frequencies.sum = (actual_series.length : ℤ)) ∧
    (capping_active actual_series reference_series max_categories = true →
      (calculate_frequencies actual_series reference_series max_categories
        other_modalities_key).all_modalities.length ≤ max_categories.getD 0 + 1) := by
  have huncapped : ∀ mods : List α, mods.Nodup → (∀ x ∈ reference_series, x ∈ mods) →
      (∀ x ∈ actual_series, x ∈ mods) →
      ((uncapped_frequencies actual_series reference_series mods).expected_frequencies.sum
          = (reference_series.length : ℤ)) ∧
      ((uncapped_frequencies actual_series reference_series mods).actual_frequencies.sum
          = (actual_series.length : ℤ)) := by
    intro mods hnd hcr hca
    constructor
    · show (mods.map fun c => (reference_series.count c : ℤ)).sum = _
      rw [sum_map_intCast, sum_map_count_nodup_eq mods reference_series hnd hcr]
    · show (mods.map fun c => (actual_series.count c : ℤ)).sum = _
      rw [sum_map_intCast, sum_map_count_nodup_eq mods actual_series hnd hca]
  have hdedup := List.nodup_dedup (reference_series ++ actual_series)
  have hcr : ∀ x ∈ reference_series, x ∈ (reference_series ++ actual_series).dedup :=
    fun x hx => List.mem_dedup.mpr (List.mem_append_left _ hx)
  have hca : ∀ x ∈ actual_series, x ∈ (reference_series ++ actual_series).dedup :=
    fun x hx => List.mem_dedup.mpr (List.mem_append_right _ hx)
  cases max_categories with
  | none =>
      have h := huncapped _ hdedup hcr hca
      exact ⟨h.1, h.2, by intro hcap; simp [capping_active] at hcap⟩
  | some k =>
      by_cases hk : k < ((reference_series ++ actual_series).dedup).length
      · have hcount_other : (actual_series.count other_modalities_key : ℤ) = 0 := by
          rw [List.count_eq_zero_of_not_mem h_other_actual]
          rfl
        refine ⟨?_, ?_, ?_⟩
        · show ((calculate_frequencies actual_series reference_series (some k)
            other_modalities_key).expected_frequencies.sum = _)
          simp only [calculate_frequencies, if_pos hk, capped_frequencies]
          rw [List.sum_append]
          simp
        · show ((calculate_frequencies actual_series reference_series (some k)
            other_modalities_key).actual_frequencies.sum = _)
          simp only [calculate_frequencies, if_pos hk, capped_frequencies]
          rw [List.sum_append, List.map_append, List.sum_append]
          simp only [List.map_cons, List.map_nil, List.sum_cons, List.sum_nil]
          rw [hcount_other]
          ring
        · intro _
          simp only [calculate_frequencies, if_pos hk, capped_frequencies, Option.getD]
          show ((most_common reference_series k) ++ [other_modalities_key]).length ≤ k + 1
          rw [List.length_append]
          have := List.length_take_le k
            (sort_by_count (fun c => reference_series.count c) reference_series.dedup)
          simp only [List.length_singleton]
          exact Nat.add_le_add_right this 1
      · have h := huncapped _ hdedup hcr hca
        refine ⟨?_, ?_, ?_⟩
        · show ((calculate_frequencies actual_series reference_series (some k)
            other_modalities_key).expected_frequencies.sum = _)
          simp only [calculate_frequencies, if_neg hk]
          exact h.1
        · show ((calculate_frequencies actual_series reference_series (some k)
            other_modalities_key).actual_frequencies.sum = _)
          simp only [calculate_frequencies, if_neg hk]
          exact h.2
        · intro hcap
          simp only [capping_active, decide_eq_true_eq] at hcap
          exact absurd hcap hk

/-- C3 witness: the invariants evaluated on a concrete capped instance. -/
theorem calculate_frequencies_invariants_witness :
    ((calculate_frequencies ["a", "b", "b"] ["a", "a", "c"] (some 1)
        "oth").expected_frequencies.sum = ((["a", "a", "c"] : List String).length : ℤ)) ∧
    ((calculate_frequencies ["a", "b", "b"] ["a", "a", "c"] (some 1)
        "oth").actual_frequencies.sum = ((["a", "b", "b"] : List String).length : ℤ)) ∧
    (capping_active ["a", "b", "b"] ["a", "a", "c"] (some 1) = true →
      (calculate_frequencies ["a", "b", "b"] ["a", "a", "c"] (some 1)
        "oth").all_modalities.length ≤ (some 1 : Option ℕ).getD 0 + 1) :=
  calculate_frequencies_invariants ["a", "b", "b"] ["a", "a", "c"] (some 1) "oth"
    (by decide) (by decide)

end Giskard

namespace Giskard

variable {α : Type} [DecidableEq α]

/-- C2: the chi-square calculator returns a statistic that is nonnegative and a
p-value in `[0, 1]`; the p-value is exactly `0` for at most one category, and
otherwise equals `1 - cdf(chi_square, categories - 1)`, forced to `0` when the
CDF evaluates to exactly `0`.  The external CDF is assumed to take values in
`[0, 1]`, as every cumulative distribution function does. -/
theorem calculate_chi_square_bounds (cdf : ℚ → ℕ → ℚ)
    (hcdf0 : ∀ x n, 0 ≤ cdf x n) (hcdf1 : ∀ x n, cdf x n ≤ 1)
    (actual_series reference_series : List α) (max_categories : Option ℕ)
    (other_modalities_key : α) :
    0 ≤ (calculate_chi_square cdf actual_series reference_series max_categories
        other_modalities_key).1 ∧
    0 ≤ (calculate_chi_square cdf actual_series reference_series max_categories
        other_modalities_key).2.1 ∧
    (calculate_chi_square cdf actual_series reference_series max_categories
        other_modalities_key).2.1 ≤ 1 ∧
    ((calculate_frequencies actual_series reference_series max_categories
        other_modalities_key).all_modalities.length ≤ 1 →
      (calculate_chi_square cdf actual_series reference_series max_categories
        other_modalities_key).2.1 = 0) ∧
    (1 < (calculate_frequencies actual_series reference_series max_categories
        other_modalities_key).all_modalities.length →
      (calculate_chi_square cdf actual_series reference_series max_categories
          other_modalities_key).2.1 =
        (if cdf (calculate_chi_square cdf actual_series reference_series max_categories
              other_modalities_key).1
            ((calculate_frequencies actual_series reference_series max_categories
              other_modalities_key).all_modalities.length - 1) ≠ 0
         then 1 - cdf (calculate_chi_square cdf actual_series reference_series max_categories
              other_modalities_key).1
            ((calculate_frequencies actual_series reference_series max_categories
              other_modalities_key).all_modalities.length - 1)
         else 0)) := by
  have hstat : (calculate_chi_square cdf actual_series reference_series max_categories
      other_modalities_key).1
      = (chi_contributions ((actual_series.length : ℚ) / (reference_series.length : ℚ))
          (calculate_frequencies actual_series reference_series max_categories
            other_modalities_key).actual_frequencies
          (calculate_frequencies actual_series reference_series max_categories
            other_modalities_key).expected_frequencies).sum := rfl
  have hstat_nonneg : 0 ≤ (calculate_chi_square cdf actual_series reference_series
      max_categories other_modalities_key).1 := by
    rw [hstat]
    apply List.sum_nonneg
    intro c hc
    simp only [chi_contributions, List.mem_map] at hc
    obtain ⟨p, hp, rfl⟩ := hc
    have hp2 := (List.of_mem_zip hp).2
    have he : (0 : ℤ) ≤ p.2 :=
      expected_frequencies_nonneg actual_series reference_series max_categories
        other_modalities_key p.2 hp2
    have heQ : (0 : ℚ) ≤ (p.2 : ℚ) := by exact_mod_cast he
    have hk : (0 : ℚ) ≤ (actual_series.length : ℚ) / (reference_series.length : ℚ) :=
      div_nonneg (Nat.cast_nonneg _) (Nat.cast_nonneg _)
    exact div_nonneg (sq_nonneg _) (mul_nonneg heQ hk)
  have hpv : (calculate_chi_square cdf actual_series reference_series max_categories
      other_modalities_key).2.1
      = (if 1 < (calculate_frequencies actual_series reference_series max_categories
            other_modalities_key).all_modalities.length then
          (if cdf (calculate_chi_square cdf actual_series reference_series max_categories
                other_modalities_key).1
              ((calculate_frequencies actual_series reference_series max_categories
                other_modalities_key).all_modalities.length - 1) ≠ 0
           then 1 - cdf (calculate_chi_square cdf actual_series reference_series max_categories
                other_modalities_key).1
              ((calculate_frequencies actual_series reference_series max_categories
                other_modalities_key).all_modalities.length - 1)
           else 0)
         else 0) := rfl
  refine ⟨hstat_nonneg, ?_, ?_, ?_, ?_⟩
  · rw [hpv]
    split_ifs with h1 h2
    · have := hcdf1 (calculate_chi_square cdf actual_series reference_series max_categories
        other_modalities_key).1
        ((calculate_frequencies actual_series reference_series max_categories
          other_modalities_key).all_modalities.length - 1)
      linarith
    · exact le_refl 0
    · exact le_refl 0
  · rw [hpv]
    split_ifs with h1 h2
    · have := hcdf0 (calculate_chi_square cdf actual_series reference_series max_categories
        other_modalities_key).1
        ((calculate_frequencies actual_series reference_series max_categories
          other_modalities_key).all_modalities.length - 1)
      linarith
    · norm_num
    · norm_num
  · intro h
    rw [hpv, if_neg (Nat.not_lt.mpr h)]
  · intro h
    rw [hpv, if_pos h]

/-- C2 witness: the bounds evaluated on a concrete instance with a constant
half CDF. -/
theorem calculate_chi_square_bounds_witness :
    0 ≤ (calculate_chi_square (fun _ _ => 1 / 2) ["a", "b"] ["a", "a"] none "o").1 ∧
    0 ≤ (calculate_chi_square (fun _ _ => 1 / 2) ["a", "b"] ["a", "a"] none "o").2.1 :=
  ⟨(calculate_chi_square_bounds (fun _ _ => 1 / 2) (fun _ _ => by norm_num)
      (fun _ _ => by norm_num) ["a", "b"] ["a", "a"] none "o").1,
   (calculate_chi_square_bounds (fun _ _ => 1 / 2) (fun _ _ => by norm_num)
      (fun _ _ => by norm_num) ["a", "b"] ["a", "a"] none "o").2.1⟩

end Giskard

namespace Giskard

variable {α : Type} [DecidableEq α]

theorem calculate_psi_eq (L : ℚ → ℚ) (a e : ℚ) :
    calculate_psi L a e
      = (max e (1 / 10000) - max a (1 / 10000))
          * L (max e (1 / 10000) / max a (1 / 10000)) := rfl

theorem calculate_psi_of_clamp_eq (L : ℚ → ℚ) {a e : ℚ}
    (h : max e (1 / 10000) = max a (1 / 10000)) : calculate_psi L a e = 0 := by
  rw [calculate_psi_eq, h, sub_self, zero_mul]

theorem calculate_psi_spec (L : ℚ → ℚ)
    (hLpos : ∀ q : ℚ, 1 < q → 0 < L q) (hLneg : ∀ q : ℚ, q < 1 → L q < 0) (a e : ℚ) :
    0 ≤ calculate_psi L a e ∧
      (calculate_psi L a e = 0 ↔ max e (1 / 10000) = max a (1 / 10000)) := by
  have hy : (0 : ℚ) < max a (1 / 10000) :=
    lt_of_lt_of_le (by norm_num) (le_max_right _ _)
  rw [calculate_psi_eq]
  rcases lt_trichotomy (max e (1 / 10000)) (max a (1 / 10000)) with h | h | h
  · have hr : max e (1 / 10000) / max a (1 / 10000) < 1 := (div_lt_one hy).mpr h
    have hL := hLneg _ hr
    have hprod : 0 < (max e (1 / 10000) - max a (1 / 10000))
        * L (max e (1 / 10000) / max a (1 / 10000)) :=
      mul_pos_of_neg_of_neg (by linarith) hL
    exact ⟨le_of_lt hprod,
      ⟨fun h0 => absurd h0 (ne_of_gt hprod), fun h0 => absurd h0 (ne_of_lt h)⟩⟩
  · rw [h, sub_self, zero_mul]
    exact ⟨le_refl 0, ⟨fun _ => rfl, fun _ => rfl⟩⟩
  · have hr : 1 < max e (1 / 10000) / max a (1 / 10000) := (one_lt_div hy).mpr h
    have hL := hLpos _ hr
    have hprod : 0 < (max e (1 / 10000) - max a (1 / 10000))
        * L (max e (1 / 10000) / max a (1 / 10000)) :=
      mul_pos (by linarith) hL
    exact ⟨le_of_lt hprod,
      ⟨fun h0 => absurd h0 (ne_of_gt hprod), fun h0 => absurd h0 (ne_of_gt h)⟩⟩

theorem sum_eq_zero_iff_of_nonneg :
    ∀ l : List ℚ, (∀ x ∈ l, 0 ≤ x) → (l.sum = 0 ↔ ∀ x ∈ l, x = 0)
  | [], _ => by simp
  | a :: t, h => by
      have ht := sum_eq_zero_iff_of_nonneg t fun x hx => h x (List.mem_cons_of_mem _ hx)
      have ha := h a (List.mem_cons_self _ _)
      have htsum : 0 ≤ t.sum := List.sum_nonneg fun x hx => h x (List.mem_cons_of_mem _ hx)
      simp only [List.sum_cons, List.mem_cons]
      constructor
      · intro h0
        have ha0 : a = 0 := by linarith
        have ht0 : t.sum = 0 := by linarith
        intro x hx
        rcases hx with rfl | hx
        · exact ha0
        · exact (ht.mp ht0) x hx
      · intro hall
        have ha0 : a = 0 := hall a (Or.inl rfl)
        have ht0 : t.sum = 0 := ht.mpr fun x hx => hall x (Or.inr hx)
        rw [ha0, ht0, add_zero]

/-- C1 (amended): the total PSI is always nonnegative, and it is zero exactly
when, category by category, the two proportions clamped to the `0.0001` floor
coincide.  Identical distributions give PSI `= 0`, but the converse fails when
a differing category has both proportions at or below the floor.  The external
logarithm is assumed positive above `1` and negative below `1`. -/
theorem calculate_drift_psi_nonneg (L : ℚ → ℚ)
    (hLpos : ∀ q : ℚ, 1 < q → 0 < L q) (hLneg : ∀ q : ℚ, q < 1 → L q < 0)
    (actual_series reference_series : List α) (max_categories : Option ℕ)
    (other_modalities_key : α) :
    0 ≤ (calculate_drift_psi L actual_series reference_series max_categories
        other_modalities_key).1 ∧
    ((calculate_drift_psi L actual_series reference_series max_categories
        other_modalities_key).1 = 0 ↔
      ∀ p ∈ (psi_distributions actual_series reference_series max_categories
          other_modalities_key).1.zip
          (psi_distributions actual_series reference_series max_categories
            other_modalities_key).2,
        max p.1 (1 / 10000) = max p.2 (1 / 10000)) := by
  have htot : (calculate_drift_psi L actual_series reference_series max_categories
      other_modalities_key).1
      = (psi_contributions L
          (psi_distributions actual_series reference_series max_categories
            other_modalities_key).1
          (psi_distributions actual_series reference_series max_categories
            other_modalities_key).2).sum := rfl
  have hmem : ∀ c ∈ psi_contributions L
      (psi_distributions actual_series reference_series max_categories
        other_modalities_key).1
      (psi_distributions actual_series reference_series max_categories
        other_modalities_key).2, 0 ≤ c := by
    intro c hc
    simp only [psi_contributions, List.mem_map] at hc
    obtain ⟨p, _, rfl⟩ := hc
    exact (calculate_psi_spec L hLpos hLneg p.2 p.1).1
  constructor
  · rw [htot]
    exact List.sum_nonneg hmem
  · rw [htot, sum_eq_zero_iff_of_nonneg _ hmem]
    constructor
    · intro h p hp
      have hz := h (calculate_psi L p.2 p.1) (by
        simp only [psi_contributions, List.mem_map]
        exact ⟨p, hp, rfl⟩)
      exact (calculate_psi_spec L hLpos hLneg p.2 p.1).2.mp hz
    · intro h c hc
      simp only [psi_contributions, List.mem_map] at hc
      obtain ⟨p, hp, rfl⟩ := hc
      exact (calculate_psi_spec L hLpos hLneg p.2 p.1).2.mpr (h p hp)

/-- C1 witness: nonnegativity of the total PSI at a concrete input, with the
logarithm instantiated by a function with the sign behavior of `ln`. -/
theorem calculate_drift_psi_nonneg_witness :
    0 ≤ (calculate_drift_psi (fun q => q - 1) ["a"] ["a"] none "o").1 :=
  (calculate_drift_psi_nonneg (fun q => q - 1)
    (fun q hq => by simp only [sub_pos]; exact hq)
    (fun q hq => by simp only [sub_neg]; exact hq) ["a"] ["a"] none "o").1

end Giskard

namespace Giskard

theorem psi_countr (m : ℕ) :
    psi_ce_reference.count m = (if m = 0 then 9999 else 0) + (if m = 1 then 1 else 0) := by
  rw [psi_ce_reference, List.count_append, List.count_replicate, List.count_singleton]
  by_cases h0 : m = 0
  · subst h0
    decide
  · by_cases h1 : m = 1
    · subst h1
      decide
    · simp [h0, h1, Ne.symm h0, Ne.symm h1]

theorem psi_counta (m : ℕ) :
    psi_ce_actual.count m = (if m = 0 then 9999 else 0) + (if m = 2 then 1 else 0) := by
  rw [psi_ce_actual, List.count_append, List.count_replicate, List.count_singleton]
  by_cases h0 : m = 0
  · subst h0
    decide
  · by_cases h2 : m = 2
    · subst h2
      decide
    · simp [h0, h2, Ne.symm h0, Ne.symm h2]

theorem psi_ce_mods_mem : (1 : ℕ) ∈ (psi_ce_reference ++ psi_ce_actual).dedup := by
  rw [List.mem_dedup]
  apply List.mem_append_left
  rw [psi_ce_reference]
  exact List.mem_append_right _ (List.mem_singleton_self 1)

theorem psi_ce_reference_length : psi_ce_reference.length = 10000 := by
  rw [psi_ce_reference, List.length_append, List.length_replicate]
  rfl

theorem psi_ce_actual_length : psi_ce_actual.length = 10000 := by
  rw [psi_ce_actual, List.length_append, List.length_replicate]
  rfl

theorem psi_distributions_none_fst {α : Type} [DecidableEq α]
    (actual_series reference_series : List α) (other_modalities_key : α) :
    (psi_distributions actual_series reference_series none other_modalities_key).1
      = ((reference_series ++ actual_series).dedup).map
          fun m => ((reference_series.count m : ℤ) : ℚ) / (reference_series.length : ℚ) := by
  simp only [psi_distributions, calculate_frequencies, uncapped_frequencies, List.map_map]
  rfl

theorem psi_distributions_none_snd {α : Type} [DecidableEq α]
    (actual_series reference_series : List α) (other_modalities_key : α) :
    (psi_distributions actual_series reference_series none other_modalities_key).2
      = ((reference_series ++ actual_series).dedup).map
          fun m => ((actual_series.count m : ℤ) : ℚ) / (actual_series.length : ℚ) := by
  simp only [psi_distributions, calculate_frequencies, uncapped_frequencies, List.map_map]
  rfl

theorem calculate_drift_psi_fst {α : Type} [DecidableEq α] (L : ℚ → ℚ)
    (actual_series reference_series : List α) (max_categories : Option ℕ)
    (other_modalities_key : α) :
    (calculate_drift_psi L actual_series reference_series max_categories
        other_modalities_key).1
      = (psi_contributions L
          (psi_distributions actual_series reference_series max_categories
            other_modalities_key).1
          (psi_distributions actual_series reference_series max_categories
            other_modalities_key).2).sum := rfl

/-- C1 counterexample: two series of length 10000 whose frequency distributions
differ (one has a single occurrence of category 1 where the other has category
2), yet whose total PSI is exactly 0, because the differing proportions
`1/10000` and `0` both clamp to the `0.0001` floor. -/
theorem psi_zero_with_different_distributions :
    (calculate_drift_psi (fun q => q - 1) psi_ce_actual psi_ce_reference none 0).1 = 0 ∧
    (psi_distributions psi_ce_actual psi_ce_reference none 0).1 ≠
      (psi_distributions psi_ce_actual psi_ce_reference none 0).2 := by
  constructor
  · rw [calculate_drift_psi_fst]
    simp only [psi_contributions]
    rw [psi_distributions_none_fst, psi_distributions_none_snd, List.zip_map', List.map_map]
    apply List.sum_eq_zero
    intro x hx
    simp only [List.mem_map, Function.comp] at hx
    obtain ⟨m, _, rfl⟩ := hx
    apply calculate_psi_of_clamp_eq
    rw [psi_countr m, psi_counta m, psi_ce_reference_length, psi_ce_actual_length]
    by_cases h0 : m = 0
    · subst h0
      norm_num
    · by_cases h1 : m = 1
      · subst h1
        norm_num [max_def]
      · by_cases h2 : m = 2
        · subst h2
          norm_num [max_def]
        · simp [h0, h1, h2]
  · intro heq
    rw [psi_distributions_none_fst, psi_distributions_none_snd] at heq
    have hpt := List.map_inj_left.mp heq 1 psi_ce_mods_mem
    rw [psi_countr 1, psi_counta 1, psi_ce_reference_length, psi_ce_actual_length] at hpt
    norm_num at hpt

end Giskard

namespace Giskard

theorem ok_bind {ε β γ : Type} (b : β) (f : β → Except ε γ) :
    (Except.ok b >>= f) = f b := rfl

theorem error_bind {ε β γ : Type} (e : ε) (f : β → Except ε γ) :
    ((Except.error e : Except ε β) >>= f) = Except.error e := rfl

theorem foldl_max_const (v : ℚ) : ∀ l : List ℚ, (∀ x ∈ l, x = v) → l.foldl max v = v
  | [], _ => rfl
  | a :: t, h => by
      have ha : a = v := h a (List.mem_cons_self _ _)
      have ht := foldl_max_const v t fun x hx => h x (List.mem_cons_of_mem _ hx)
      simp only [List.foldl_cons, ha, max_self]
      exact ht

theorem foldl_min_const (v : ℚ) : ∀ l : List ℚ, (∀ x ∈ l, x = v) → l.foldl min v = v
  | [], _ => rfl
  | a :: t, h => by
      have ha : a = v := h a (List.mem_cons_self _ _)
      have ht := foldl_min_const v t fun x hx => h x (List.mem_cons_of_mem _ hx)
      simp only [List.foldl_cons, ha, min_self]
      exact ht

theorem emd_sample_space_all_eq (actual_series reference_series : List ℚ) (v : ℚ)
    (h : ∀ x ∈ reference_series ++ actual_series, x = v)
    (h_reference : reference_series ≠ []) :
    emd_val_max actual_series reference_series = v ∧
    emd_val_min actual_series reference_series = v := by
  have hss : ∀ x ∈ emd_sample_space actual_series reference_series, x = v := by
    intro x hx
    exact h x (List.mem_dedup.mp hx)
  have hne : emd_sample_space actual_series reference_series ≠ [] := by
    intro h0
    apply h_reference
    have happ := (List.dedup_eq_nil _).mp h0
    exact (List.append_eq_nil.mp happ).1
  have hhead : (emd_sample_space actual_series reference_series).headD 0 = v := by
    cases hss' : emd_sample_space actual_series reference_series with
    | nil => exact absurd hss' hne
    | cons a t =>
        have ha : a = v := by
          apply hss
          rw [hss']
          exact List.mem_cons_self _ _
        simp [ha]
  constructor
  · unfold emd_val_max
    rw [hhead]
    exact foldl_max_const v _ hss
  · unfold emd_val_min
    rw [hhead]
    exact foldl_min_const v _ hss

/-- C4: when the combined sample-space maximum equals its minimum (in
particular when all values of both series coincide) the Earth-Mover calculator
returns exactly `0` without entering the normalization branch; otherwise it
returns the external Wasserstein distance of the two series min-max normalized
with the shared extrema. -/
theorem calculate_earth_movers_distance_spec (wass : List ℚ → List ℚ → ℚ)
    (actual_series reference_series : List ℚ)
    (h_actual : actual_series ≠ []) (h_reference : reference_series ≠ []) :
    (emd_val_max actual_series reference_series = emd_val_min actual_series reference_series →
      calculate_earth_movers_distance wass actual_series reference_series = 0) ∧
    ((∃ v, ∀ x ∈ reference_series ++ actual_series, x = v) →
      calculate_earth_movers_distance wass actual_series reference_series = 0) ∧
    (emd_val_max actual_series reference_series ≠ emd_val_min actual_series reference_series →
      calculate_earth_movers_distance wass actual_series reference_series
        = wass
            (reference_series.map fun x =>
              (x - emd_val_min actual_series reference_series)
                / (emd_val_max actual_series reference_series
                    - emd_val_min actual_series reference_series))
            (actual_series.map fun x =>
              (x - emd_val_min actual_series reference_series)
                / (emd_val_max actual_series reference_series
                    - emd_val_min actual_series reference_series))) := by
  have hdef : calculate_earth_movers_distance wass actual_series reference_series
      = if emd_val_max actual_series reference_series
            = emd_val_min actual_series reference_series then 0
        else wass
            (reference_series.map fun x =>
              (x - emd_val_min actual_series reference_series)
                / (emd_val_max actual_series reference_series
                    - emd_val_min actual_series reference_series))
            (actual_series.map fun x =>
              (x - emd_val_min actual_series reference_series)
                / (emd_val_max actual_series reference_series
                    - emd_val_min actual_series reference_series)) := rfl
  refine ⟨?_, ?_, ?_⟩
  · intro h
    rw [hdef, if_pos h]
  · rintro ⟨v, hv⟩
    obtain ⟨hmax, hmin⟩ :=
      emd_sample_space_all_eq actual_series reference_series v hv h_reference
    rw [hdef, if_pos (by rw [hmax, hmin])]
  · intro h
    rw [hdef, if_neg h]

/-- C4 witness: two constant series of value 5 and length 10 give metric 0. -/
theorem calculate_earth_movers_distance_spec_witness :
    calculate_earth_movers_distance (fun _ _ => 1) (List.replicate 10 (5 : ℚ))
      (List.replicate 10 (5 : ℚ)) = 0 :=
  (calculate_earth_movers_distance_spec (fun _ _ => 1) (List.replicate 10 (5 : ℚ))
      (List.replicate 10 (5 : ℚ)) (by decide) (by decide)).2.1
    ⟨5, by
      intro x hx
      rcases List.mem_append.mp hx with h | h
      · exact List.eq_of_mem_replicate h
      · exact List.eq_of_mem_replicate h⟩

end Giskard

namespace Giskard

variable {α : Type}

theorem isValueError_bind {β γ : Type} (x : Except TestError β) (f : β → Except TestError γ)
    (h : isValueError x = true) : isValueError (x >>= f) = true := by
  cases x with
  | ok v => simp [isValueError] at h
  | error e =>
      rw [error_bind]
      cases e <;> simp_all [isValueError]

theorem extract_series_empty (actual_ds reference_ds : Dataset α)
    (column_name feature_type : String)
    (hc1 : column_name ∈ actual_ds.columns) (hc2 : column_name ∈ reference_ds.columns)
    (ht1 : actual_ds.feature_types column_name = feature_type)
    (ht2 : reference_ds.feature_types column_name = feature_type)
    (he : actual_ds.df column_name = [] ∨ reference_ds.df column_name = []) :
    isValueError (extract_series actual_ds reference_ds column_name feature_type) = true := by
  unfold extract_series validate_column_name validate_feature_type validate_series_notempty
  rw [if_pos hc1, if_pos hc2, if_pos ht1, if_pos ht2]
  simp only [ok_bind]
  rcases he with h | h
  · rw [h]
    simp [isValueError, error_bind]
  · by_cases ha : (actual_ds.df column_name).isEmpty
    · simp [ha, isValueError, error_bind, ok_bind]
    · simp [ha, h, isValueError, error_bind, ok_bind]

/-- C5 (amended): the four feature-drift tests raise the empty-series
ValueError before invoking any calculator when either extracted series is
empty, but the prediction-drift tests perform no emptiness validation at all:
the prediction PSI test completes without raising on any input, an empty
series included. -/
theorem drift_feature_tests_raise_on_empty (L : ℚ → ℚ) (cdf : ℚ → ℕ → ℚ)
    (ks : List ℚ → List ℚ → ℚ × ℚ) (wass : List ℚ → List ℚ → ℚ)
    (cat_reference_ds cat_actual_ds : Dataset String)
    (num_reference_ds num_actual_ds : Dataset ℚ) (column_name : String) (fmt : ℚ → String)
    (threshold_opt : Option ℚ) (threshold : ℚ) (max_categories : Option ℕ)
    (psi_contribution_percent chi_square_contribution_percent : ℚ)
    (other_modalities_key : String)
    (prediction_reference : List String)
    (hc1 : column_name ∈ cat_actual_ds.columns) (hc2 : column_name ∈ cat_reference_ds.columns)
    (ht1 : cat_actual_ds.feature_types column_name = "category")
    (ht2 : cat_reference_ds.feature_types column_name = "category")
    (hn1 : column_name ∈ num_actual_ds.columns) (hn2 : column_name ∈ num_reference_ds.columns)
    (hu1 : num_actual_ds.feature_types column_name = "numeric")
    (hu2 : num_reference_ds.feature_types column_name = "numeric")
    (hce : cat_actual_ds.df column_name = [] ∨ cat_reference_ds.df column_name = [])
    (hne : num_actual_ds.df column_name = [] ∨ num_reference_ds.df column_name = []) :
    isValueError (test_drift_psi L cat_reference_ds cat_actual_ds column_name threshold_opt
        max_categories psi_contribution_percent other_modalities_key) = true ∧
    isValueError (test_drift_chi_square cdf cat_reference_ds cat_actual_ds column_name
        threshold max_categories chi_square_contribution_percent other_modalities_key) = true ∧
    isValueError (test_drift_ks ks num_reference_ds num_actual_ds column_name threshold
        fmt) = true ∧
    isValueError (test_drift_earth_movers_distance wass num_reference_ds num_actual_ds
        column_name threshold_opt fmt) = true ∧
    isOkResult (test_drift_prediction_psi L [] prediction_reference max_categories
        threshold_opt psi_contribution_percent other_modalities_key) = true := by
  have hcat := extract_series_empty cat_actual_ds cat_reference_ds column_name "category"
    hc1 hc2 ht1 ht2 hce
  have hnum := extract_series_empty num_actual_ds num_reference_ds column_name "numeric"
    hn1 hn2 hu1 hu2 hne
  refine ⟨?_, ?_, ?_, ?_, rfl⟩
  · unfold test_drift_psi
    exact isValueError_bind _ _ hcat
  · unfold test_drift_chi_square
    exact isValueError_bind _ _ hcat
  · unfold test_drift_ks
    exact isValueError_bind _ _ hnum
  · unfold test_drift_earth_movers_distance
    exact isValueError_bind _ _ hnum

/-- C5 witness: the amended statement evaluated on concrete datasets whose
actual column is empty. -/
theorem drift_feature_tests_raise_on_empty_witness :
    isValueError (test_drift_psi (fun q => q - 1)
        (Dataset.mk ["col"] (fun _ => ["x"]) fun _ => "category")
        (Dataset.mk ["col"] (fun _ => []) fun _ => "category") "col" (some (1 / 5))
        (some 20) (1 / 5) "oth") = true ∧
    isValueError (test_drift_chi_square (fun _ _ => 1 / 2)
        (Dataset.mk ["col"] (fun _ => ["x"]) fun _ => "category")
        (Dataset.mk ["col"] (fun _ => []) fun _ => "category") "col" (1 / 20)
        (some 20) (1 / 5) "oth") = true ∧
    isValueError (test_drift_ks (fun _ _ => (0, 1))
        (Dataset.mk ["col"] (fun _ => [(1 : ℚ)]) fun _ => "numeric")
        (Dataset.mk ["col"] (fun _ => []) fun _ => "numeric") "col" (1 / 20)
        (fun q => toString q)) = true ∧
    isValueError (test_drift_earth_movers_distance (fun _ _ => 0)
        (Dataset.mk ["col"] (fun _ => [(1 : ℚ)]) fun _ => "numeric")
        (Dataset.mk ["col"] (fun _ => []) fun _ => "numeric") "col" (some (1 / 5))
        (fun q => toString q)) = true ∧
    isOkResult (test_drift_prediction_psi (fun q => q - 1) [] ["x"] (some 20) (some (1 / 5))
        (1 / 5) "oth") = true :=
  drift_feature_tests_raise_on_empty (fun q => q - 1) (fun _ _ => 1 / 2) (fun _ _ => (0, 1))
    (fun _ _ => 0)
    (Dataset.mk ["col"] (fun _ => ["x"]) fun _ => "category")
    (Dataset.mk ["col"] (fun _ => []) fun _ => "category")
    (Dataset.mk ["col"] (fun _ => [(1 : ℚ)]) fun _ => "numeric")
    (Dataset.mk ["col"] (fun _ => []) fun _ => "numeric")
    "col" (fun q => toString q) (some (1 / 5)) (1 / 20) (some 20) (1 / 5) (1 / 5) "oth" ["x"]
    (by decide) (by decide) rfl rfl (by decide) (by decide) rfl rfl
    (Or.inl rfl) (Or.inl rfl)

/-- C5 counterexample: the prediction PSI test, handed an empty actual
prediction series, raises no validation error and completes with a result. -/
theorem prediction_psi_accepts_empty_series :
    isOkResult (test_drift_prediction_psi (fun q => q - 1) [] ["x"] (some 10) (some (1 / 5))
      (1 / 5) "o") = true := rfl

end Giskard

namespace Giskard

/-- C6 counterexample: a classification model and a label outside its label
set make the prediction Earth-Mover test fail with a KeyError from the
prediction-column lookup, not with the label-validation AssertionError the KS
variant raises: no input validation happens first. -/
theorem prediction_emd_unknown_label_not_validated :
    test_drift_prediction_earth_movers_distance (fun _ _ => 0)
        (ModelMeta.mk "classification" ["yes", "no"])
        (fun l => if l = "yes" ∨ l = "no" then some [1] else none)
        (fun l => if l = "yes" ∨ l = "no" then some [1] else none)
        [] [] (some "maybe") (some (1 / 5)) (fun q => toString q)
      = Except.error (TestError.keyError "maybe") ∧
    isAssertError (test_drift_prediction_earth_movers_distance (fun _ _ => 0)
        (ModelMeta.mk "classification" ["yes", "no"])
        (fun l => if l = "yes" ∨ l = "no" then some [1] else none)
        (fun l => if l = "yes" ∨ l = "no" then some [1] else none)
        [] [] (some "maybe") (some (1 / 5)) (fun q => toString q)) = false :=
  ⟨rfl, rfl⟩

/-- C6 (amended): on a classification model with a label outside its label set
the prediction KS test raises the AssertionError naming the label before
anything else, while the prediction Earth-Mover test performs no such
validation: it never produces an AssertionError, the unknown label surfacing
instead as a failed prediction-column lookup. -/
theorem prediction_ks_label_validation (ks : List ℚ → List ℚ → ℚ × ℚ)
    (wass : List ℚ → List ℚ → ℚ) (meta : ModelMeta)
    (all_predictions_reference all_predictions_actual : String → Option (List ℚ))
    (prediction_reference_regression prediction_actual_regression : List ℚ)
    (classification_label : Option String) (threshold : Option ℚ) (fmt : ℚ → String)
    (hclass : meta.model_type = "classification")
    (hlabel : label_in_labels classification_label meta.classification_labels = false) :
    test_drift_prediction_ks ks meta all_predictions_reference all_predictions_actual
        prediction_reference_regression prediction_actual_regression classification_label
        threshold fmt
      = Except.error (TestError.assertionError
          (label_assert_message classification_label meta.classification_labels)) ∧
    isAssertError (test_drift_prediction_earth_movers_distance wass meta
        all_predictions_reference all_predictions_actual prediction_reference_regression
        prediction_actual_regression classification_label threshold fmt) = false := by
  constructor
  · unfold test_drift_prediction_ks
    rw [if_pos ⟨hclass, hlabel⟩, error_bind]
  · unfold test_drift_prediction_earth_movers_distance
    rw [if_pos hclass, if_pos hclass]
    cases classification_label with
    | none => simp [lookup_predictions, error_bind, isAssertError]
    | some l =>
        cases hr : all_predictions_reference l with
        | none => simp [lookup_predictions, hr, error_bind, isAssertError]
        | some sr =>
            cases ha : all_predictions_actual l with
            | none => simp [lookup_predictions, hr, ha, ok_bind, error_bind, isAssertError]
            | some sa => simp [lookup_predictions, hr, ha, ok_bind, isAssertError]

/-- C6 witness: the amended statement evaluated on a concrete classification
model and unknown label. -/
theorem prediction_ks_label_validation_witness :
    test_drift_prediction_ks (fun _ _ => (0, 1)) (ModelMeta.mk "classification" ["yes", "no"])
        (fun _ => some [1]) (fun _ => some [1]) [] [] (some "zzz") (some (1 / 20))
        (fun q => toString q)
      = Except.error (TestError.assertionError
          (label_assert_message (some "zzz") ["yes", "no"])) ∧
    isAssertError (test_drift_prediction_earth_movers_distance (fun _ _ => 0)
        (ModelMeta.mk "classification" ["yes", "no"]) (fun _ => some [1]) (fun _ => some [1])
        [] [] (some "zzz") (some (1 / 5)) (fun q => toString q)) = false :=
  prediction_ks_label_validation (fun _ _ => (0, 1)) (fun _ _ => 0)
    (ModelMeta.mk "classification" ["yes", "no"]) (fun _ => some [1]) (fun _ => some [1])
    [] [] (some "zzz") (some (1 / 20)) (fun q => toString q) rfl (by decide)

/-- C7: with an unset threshold the numerical feature Earth-Mover test does
not return a passing result: it raises the TypeError produced by comparing the
metric with None, because the source evaluates the comparison before its
threshold-is-None guard.  Evaluated at a concrete valid input. -/
theorem feature_emd_none_threshold_raises :
    test_drift_earth_movers_distance (fun _ _ => 0)
        (Dataset.mk ["col"] (fun _ => [(1 : ℚ), 2]) fun _ => "numeric")
        (Dataset.mk ["col"] (fun _ => [(1 : ℚ), 2]) fun _ => "numeric")
        "col" none (fun q => toString q)
      = Except.error (TestError.typeError
          "comparison not supported between instances of float and NoneType") := rfl

/-- C8: in the PSI diagnostic table the Actual_distribution field repeats the
Reference_distribution value instead of the actual proportion: on series with
actual proportions `[0, 1]` the table column reads `[1/2, 1/2]`. -/
theorem psi_table_actual_distribution_is_expected :
    ((calculate_drift_psi (fun q => q - 1) ["a", "a"] ["a", "b"] none "o").2.map
        fun row => row.actual_distribution) = [1 / 2, 1 / 2] ∧
    (psi_distributions ["a", "a"] ["a", "b"] none "o").2 = [0, 1] := by
  constructor
  · rfl
  · with_unfolding_all decide

/-- C9: when the numerical feature Earth-Mover test fails, its message claims
the metric is below the test risk level although the test fails precisely
because the metric exceeds the threshold (here metric 1 against threshold
1/5). -/
theorem feature_emd_failure_message_direction :
    test_drift_earth_movers_distance (fun _ _ => 1)
        (Dataset.mk ["col"] (fun _ => [(0 : ℚ), 0]) fun _ => "numeric")
        (Dataset.mk ["col"] (fun _ => [(1 : ℚ), 1]) fun _ => "numeric")
        "col" (some (1 / 5)) (fun q => toString q)
      = Except.ok
          (TestResult.mk [2] [2] false 1
            (some [TestMessage.mk TestMessageType.ERROR
              "The data is drifting (metric is equal to 1 and is below the test risk level 1/5) "])) ∧
    ¬ ((1 : ℚ) ≤ 1 / 5) := by
  constructor
  · with_unfolding_all rfl
  · norm_num

end Giskard

namespace Giskard.Service

/-- C10: the result-mapping function returns a SingleTestResult argument
unchanged, converts a TestResult field by field (translating message
severities), wraps a bool as a SingleTestResult whose passed field is that
bool with all other fields at their protobuf defaults, and raises a ValueError
on any other argument type. -/
theorem map_result_to_single_test_result_spec (s : SingleTestResult) (t : TestResult)
    (b : Bool) :
    map_result_to_single_test_result (MapResultInput.single s) = Except.ok s ∧
    map_result_to_single_test_result (MapResultInput.test t) = Except.ok
      { passed := t.passed
        messages := t.messages.map fun message =>
          { type := message_type_of_level message.type, text := message.text }
        props := t.props
        metric := t.metric
        missing_count := t.missing_count
        missing_percent := t.missing_percent
        unexpected_count := t.unexpected_count
        unexpected_percent := t.unexpected_percent
        unexpected_percent_total := t.unexpected_percent_total
        unexpected_percent_nonmissing := t.unexpected_percent_nonmissing
        partial_unexpected_index_list := t.partial_unexpected_index_list.map fun puc =>
          { value := puc.value, count := puc.count }
        unexpected_index_list := t.unexpected_index_list
        output_df := t.output_df
        number_of_perturbed_rows := t.number_of_perturbed_rows
        actual_slices_size := t.actual_slices_size
        reference_slices_size := t.reference_slices_size } ∧
    map_result_to_single_test_result (MapResultInput.boolean b)
      = Except.ok { passed := b } ∧
    map_result_to_single_test_result MapResultInput.unsupported
      = Except.error "Result of test can only be GiskardTestResult or bool" :=
  ⟨rfl, rfl, rfl, rfl⟩

end Giskard.Service
